import Mathlib

/-!
Shallow embedding of the reliable transaction-submission core:
the retrying REST executor (`transaction_executor.rs`) and the
local-ledger executor (`gen_executor.rs`).

Network and randomness effects are made explicit: per-attempt submit/wait
outcomes are inputs (`SubmitEnv`), the cryptographic hash and the seeded
RNG choice are oracle functions (`SelectOracle`), durations are natural
numbers of time units, and endpoint handles are identified by their
path-prefix key (modelled as a natural number).
-/

/-- A signed transaction as seen by the executors: sender address bytes,
sequence number, expiration timestamp and content hash. -/
structure SignedTransaction where
  sender : List Nat
  sequence_number : Nat
  expiration_timestamp_secs : Nat
  committed_hash : Nat
deriving DecidableEq, Repr

/-- CounterState from aptos_transaction_generator_lib: per-attempt
submit-failure and wait-failure buckets, one global success counter, and a
map from endpoint identity to a (successes, submit_failures, wait_failures)
triple, modelled as an association list. -/
structure CounterState where
  submit_failures : List Nat
  wait_failures : List Nat
  successes : Nat
  by_client : List (Nat × Nat × Nat × Nat)
deriving DecidableEq, Repr

/-- Environment of one attempt: whether submit_bcs succeeds, how much time
the submission consumed, and whether wait_for_transaction_by_hash succeeds. -/
structure SubmitEnv where
  submitOk : Bool
  submitElapsed : Nat
  waitOk : Bool
deriving DecidableEq, Repr

/-- The arguments the code passes to wait_for_transaction_by_hash:
the transaction content hash, the expiration-timestamp bound, and the
timeout duration. -/
structure WaitCall where
  hash : Nat
  deadline : Nat
  timeout : Nat
deriving DecidableEq, Repr

/-- Output of one submit_and_check call: the Result, the two failure flags
passed back by mutable reference, and the recorded wait call. -/
structure SubmitCheckOut where
  result : Except Unit Unit
  failed_submit : Bool
  failed_wait : Bool
  wait_call : WaitCall
deriving Repr

/-- RestApiTransactionExecutor configuration: the endpoint pool (each
client named by its path-prefix key), max_retries, and the retry_after
wait budget. -/
structure ExecutorCfg where
  rest_clients : List Nat
  max_retries : Nat
  retry_after : Nat
deriving DecidableEq, Repr

/-- External capabilities used by seeded endpoint selection: the sha3_256
hash of a byte sequence, and the StdRng-seeded uniform index choice from a
pool of the given size. -/
structure SelectOracle where
  sha3 : List Nat → List Nat
  chooseIdx : List Nat → Nat → Nat

/-- The aggregated batch error produced by execute_transactions_with_counter:
its context records the number of transactions tried and the counter snapshot. -/
structure BatchError where
  batchSize : Nat
  counters : CounterState
deriving DecidableEq, Repr

/-- submit_and_check (transaction_executor.rs lines 130-171): submit, set
failed_submit on a submission error but continue; then wait for the
transaction by hash with the remaining budget; a wait error sets
failed_wait and is returned, otherwise Ok. -/
def submit_and_check (txn : SignedTransaction) (wait_duration : Nat)
    (env : SubmitEnv) : SubmitCheckOut :=
  let failed_submit := if env.submitOk then false else true
  let wait_call : WaitCall :=
    { hash := txn.committed_hash
      deadline := txn.expiration_timestamp_secs
      timeout := wait_duration - env.submitElapsed }
  if env.waitOk then
    { result := Except.ok (), failed_submit := failed_submit,
      failed_wait := false, wait_call := wait_call }
  else
    { result := Except.error (), failed_submit := failed_submit,
      failed_wait := true, wait_call := wait_call }

/-- usize/u64 to_le_bytes: eight little-endian bytes. -/
def le_bytes8 (n : Nat) : List Nat :=
  (List.range 8).map (fun k => n / 256 ^ k % 256)

/-- The selection seed bytes: concatenation of the attempt index, the run
seed and the sender address (transaction_executor.rs lines 58-63). -/
def selection_seed (i run_seed : Nat) (sender : List Nat) : List Nat :=
  le_bytes8 i ++ le_bytes8 run_seed ++ sender

/-- Seeded endpoint selection (transaction_executor.rs lines 64-65):
sha3_256 of the selection seed seeds a StdRng which chooses one index
from the pool. -/
def select_endpoint (o : SelectOracle) (cfg : ExecutorCfg)
    (i run_seed : Nat) (sender : List Nat) : Nat :=
  o.chooseIdx (o.sha3 (selection_seed i run_seed sender)) cfg.rest_clients.length

/-- Increment the attempt bucket at index min i (len - 1), as the code
indexes with i.min(len - 1). -/
def bump_attempt (l : List Nat) (i : Nat) : List Nat :=
  l.set (min i (l.length - 1)) (l.getD (min i (l.length - 1)) 0 + 1)

/-- Apply f to the per-endpoint triple stored under the given key, if
present; the code's is_empty guard and get(..).map(..) make a missing key
or an empty map a no-op. -/
def bump_client (bc : List (Nat × Nat × Nat × Nat)) (key : Nat)
    (f : Nat × Nat × Nat → Nat × Nat × Nat) : List (Nat × Nat × Nat × Nat) :=
  bc.map (fun e => if e.1 = key then (e.1, f e.2) else e)

/-- Counter accounting after one attempt (transaction_executor.rs lines
77-100): a submit failure bumps its attempt bucket and the endpoint's
submit-failure entry; a wait failure likewise. -/
def record_attempt (c : CounterState) (i : Nat) (endpoint : Nat)
    (out : SubmitCheckOut) : CounterState :=
  let c1 :=
    if out.failed_submit then
      { c with
        submit_failures := bump_attempt c.submit_failures i
        by_client := bump_client c.by_client endpoint
          (fun t => (t.1, t.2.1 + 1, t.2.2)) }
    else c
  if out.failed_wait then
    { c1 with
      wait_failures := bump_attempt c1.wait_failures i
      by_client := bump_client c1.by_client endpoint
        (fun t => (t.1, t.2.1, t.2.2 + 1)) }
  else c1

/-- Counter accounting on attempt success (transaction_executor.rs lines
102-113): global success plus the endpoint's success entry. -/
def record_success (c : CounterState) (endpoint : Nat) : CounterState :=
  { c with
    successes := c.successes + 1
    by_client := bump_client c.by_client endpoint
      (fun t => (t.1 + 1, t.2)) }

/-- The for-loop of submit_check_and_retry: attempt index i with n
iterations remaining; each round selects an endpoint from the seeded RNG,
runs submit_and_check, records failures, and returns on success. -/
def run_attempts (cfg : ExecutorCfg) (o : SelectOracle)
    (txn : SignedTransaction) (run_seed : Nat) (env : Nat → SubmitEnv) :
    Nat → Nat → CounterState → Bool × CounterState
  | _, 0, c => (false, c)
  | i, n + 1, c =>
    let idx := select_endpoint o cfg i run_seed txn.sender
    let endpoint := cfg.rest_clients.getD idx 0
    let out := submit_and_check txn cfg.retry_after (env i)
    let c1 := record_attempt c i endpoint out
    match out.result with
    | Except.ok _ => (true, record_success c1 endpoint)
    | Except.error _ => run_attempts cfg o txn run_seed env (i + 1) n c1

/-- submit_check_and_retry (transaction_executor.rs lines 40-127): run the
retry loop; if it ends without success, fall back to waiting on a random
endpoint for the signed transaction — a fallback success bumps only the
global success counter, a fallback failure propagates the error. -/
def submit_check_and_retry (cfg : ExecutorCfg) (o : SelectOracle)
    (txn : SignedTransaction) (run_seed : Nat) (env : Nat → SubmitEnv)
    (fallbackOk : Bool) (c : CounterState) : Bool × CounterState :=
  match run_attempts cfg o txn run_seed env 0 cfg.max_retries c with
  | (true, c1) => (true, c1)
  | (false, c1) =>
    if fallbackOk then (true, { c1 with successes := c1.successes + 1 })
    else (false, c1)

/-- The per-transaction dispatch of execute_transactions_with_counter:
every transaction runs submit_check_and_retry against the shared counters
(join_all runs them all; the embedding threads the counters sequentially,
j is the transaction's position in the batch). -/
def run_batch (cfg : ExecutorCfg) (o : SelectOracle) (run_seed : Nat)
    (envs : Nat → Nat → SubmitEnv) (fallbackOks : Nat → Bool) :
    List SignedTransaction → Nat → CounterState → Bool × CounterState
  | [], _, c => (true, c)
  | txn :: rest, j, c =>
    let r := submit_check_and_retry cfg o txn run_seed (envs j) (fallbackOks j) c
    let rRest := run_batch cfg o run_seed envs fallbackOks rest (j + 1) r.2
    (r.1 && rRest.1, rRest.2)

namespace RestApi

/-- execute_transactions_with_counter of RestApiTransactionExecutor
(transaction_executor.rs lines 194-217): run every transaction, and on any
failure wrap into one error whose context records the batch length and the
counter snapshot. -/
def execute_transactions_with_counter (cfg : ExecutorCfg) (o : SelectOracle)
    (txns : List SignedTransaction) (run_seed : Nat)
    (envs : Nat → Nat → SubmitEnv) (fallbackOks : Nat → Bool)
    (c : CounterState) : Except BatchError Unit × CounterState :=
  let r := run_batch cfg o run_seed envs fallbackOks txns 0 c
  if r.1 then (Except.ok (), r.2)
  else (Except.error { batchSize := txns.length, counters := r.2 }, r.2)

/-- create_counter_state of RestApiTransactionExecutor
(transaction_executor.rs lines 219-243): max_retries zeroed buckets for
each failure kind, a zero success counter, and one zero triple per client. -/
def create_counter_state (cfg : ExecutorCfg) : CounterState :=
  { submit_failures := List.replicate cfg.max_retries 0
    wait_failures := List.replicate cfg.max_retries 0
    successes := 0
    by_client := cfg.rest_clients.map (fun client => (client, 0, 0, 0)) }

end RestApi

/-- Outcome of a Rust call whose body can return Ok, return Err, or panic
(unwrap on None or on Err). -/
inductive RustOutcome (α : Type) where
  | ok : α → RustOutcome α
  | err : RustOutcome α
  | panic : RustOutcome α
deriving DecidableEq, Repr

/-- The 0x1::coin::CoinStore resource, as read by DbAccessUtil. -/
structure CoinStore where
  coin : Nat
deriving DecidableEq, Repr

/-- The transactions of the benchmark pipeline: user transactions and
synthetic state-checkpoint markers (identified by their random hash). -/
inductive Transaction where
  | userTransaction : SignedTransaction → Transaction
  | stateCheckpoint : Nat → Transaction
deriving DecidableEq, Repr

/-- BenchmarkTransaction: a pipeline transaction plus optional extra info
(always absent for the batches built here). -/
structure BenchmarkTransaction where
  transaction : Transaction
  extra_info : Option Unit
deriving DecidableEq, Repr

namespace DbGen

/-- get_account_balance of DbGenInitTransactionExecutor (gen_executor.rs
lines 36-44): read the CoinStore at the coin-store state key from the
latest state view; a read error propagates with the question-mark
operator, an absent resource hits unwrap() and panics. The latest state
view is the db argument. -/
def get_account_balance (db : List Nat → Except Unit (Option CoinStore))
    (account_address : List Nat) : RustOutcome Nat :=
  match db account_address with
  | Except.error _ => RustOutcome.err
  | Except.ok none => RustOutcome.panic
  | Except.ok (some store) => RustOutcome.ok store.coin

/-- query_sequence_number of DbGenInitTransactionExecutor (gen_executor.rs
lines 46-54): get_account_resource().unwrap().unwrap() — a read error or
an absent account resource both panic; otherwise the stored sequence
number is returned. -/
def query_sequence_number (accountDb : List Nat → Except Unit (Option Nat))
    (address : List Nat) : RustOutcome Nat :=
  match accountDb address with
  | Except.error _ => RustOutcome.panic
  | Except.ok none => RustOutcome.panic
  | Except.ok (some n) => RustOutcome.ok n

/-- The batch handed to block_sender (gen_executor.rs lines 61-71): each
input transaction wrapped as a UserTransaction with no extra info,
followed by one StateCheckpoint marker with a random hash. -/
def sent_batch (txns : List SignedTransaction) (checkpointHash : Nat) :
    List BenchmarkTransaction :=
  txns.map (fun t => { transaction := Transaction.userTransaction t, extra_info := none })
    ++ [{ transaction := Transaction.stateCheckpoint checkpointHash, extra_info := none }]

/-- The while loop of gen_executor.rs lines 74-76 for one transaction:
poll the locally observed sequence number (obs t at poll instant t) until
it is at least the target; fuel bounds the number of polls, t advances by
one per sleep. Returns the poll instant at which the loop exits. -/
def wait_for_seq (obs : Nat → Nat) (target : Nat) : Nat → Nat → Option Nat
  | _, 0 => none
  | t, fuel + 1 =>
    if target > obs t then wait_for_seq obs target (t + 1) fuel else some t

/-- The for loop of gen_executor.rs lines 73-77: wait on each transaction
of the batch in order, threading the poll clock. -/
def wait_all_seqs (obs : Nat → List Nat → Nat) (fuel : Nat) :
    List SignedTransaction → Nat → Option Nat
  | [], t => some t
  | txn :: rest, t =>
    match wait_for_seq (fun s => obs s txn.sender) txn.sequence_number t fuel with
    | none => none
    | some t1 => wait_all_seqs obs fuel rest t1

/-- Result of the local executor's batch call: success at a final poll
instant, a channel send error, or still blocked when the poll fuel runs out. -/
inductive DbExecOutcome where
  | success : Nat → DbExecOutcome
  | channelErr : DbExecOutcome
  | outOfFuel : DbExecOutcome
deriving DecidableEq, Repr

/-- execute_transactions_with_counter of DbGenInitTransactionExecutor
(gen_executor.rs lines 56-79): send the wrapped batch plus a trailing
checkpoint to the channel (a send error propagates and nothing is
delivered), then block polling until every sender reaches its
transaction's sequence number; the _state counters are never touched.
Returns the batches the channel received, the outcome, and the counters. -/
def execute_transactions_with_counter (txns : List SignedTransaction)
    (sendOk : Bool) (checkpointHash : Nat) (obs : Nat → List Nat → Nat)
    (fuel : Nat) (c : CounterState) :
    List (List BenchmarkTransaction) × DbExecOutcome × CounterState :=
  if sendOk then
    match wait_all_seqs obs fuel txns 0 with
    | some t => ([sent_batch txns checkpointHash], DbExecOutcome.success t, c)
    | none => ([sent_batch txns checkpointHash], DbExecOutcome.outOfFuel, c)
  else ([], DbExecOutcome.channelErr, c)

/-- create_counter_state of DbGenInitTransactionExecutor (gen_executor.rs
lines 81-88): single zero bucket for each failure kind, zero successes,
empty per-client map. -/
def create_counter_state : CounterState :=
  { submit_failures := [0]
    wait_failures := [0]
    successes := 0
    by_client := [] }

end DbGen

/-- Scenario configuration: one endpoint (key 7), max_retries three, a
wait budget of 100 time units. -/
def cfgB : ExecutorCfg := { rest_clients := [7], max_retries := 3, retry_after := 100 }

/-- A concrete selection oracle for scenarios: the hash passes the bytes
through, the seeded choice sums the seed bytes modulo the pool size. -/
def oracleB : SelectOracle :=
  { sha3 := fun l => l
    chooseIdx := fun s n => s.foldl (fun a b => a + b) 0 % n }

/-- A concrete transaction for scenarios. -/
def txnB : SignedTransaction :=
  { sender := [3], sequence_number := 5, expiration_timestamp_secs := 9,
    committed_hash := 11 }

/-- Scenario B attempt outcomes: the first two attempts fail to submit and
fail the wait, the third submits and commits. -/
def envB : Nat → SubmitEnv := fun i =>
  if i < 2 then { submitOk := false, submitElapsed := 0, waitOk := false }
  else { submitOk := true, submitElapsed := 0, waitOk := true }

/-- Attempt outcomes where every attempt fails both submission and wait. -/
def envAllFail : Nat → SubmitEnv :=
  fun _ => { submitOk := false, submitElapsed := 0, waitOk := false }

/-- get_account_balance of RestApiTransactionExecutor
(transaction_executor.rs lines 175-184): the balance lookup runs under the
external retry policy (its outcome is the argument); an error propagates
with the question-mark operator, a value is unwrapped and returned. -/
def RestApi.get_account_balance (lookup : Except Unit Nat) : Except Unit Nat := do
  let v ← lookup
  Except.ok v

/-- The first component of run_attempts does not depend on the counter
state: whether some attempt succeeds is driven only by the attempt
environments. -/
theorem run_attempts_fst_indep (cfg : ExecutorCfg) (o : SelectOracle)
    (txn : SignedTransaction) (run_seed : Nat) (env : Nat → SubmitEnv) :
    ∀ (n i : Nat) (c c' : CounterState),
      (run_attempts cfg o txn run_seed env i n c).1
        = (run_attempts cfg o txn run_seed env i n c').1 := by
  intro n
  induction n with
  | zero => intro i c c'; rfl
  | succ n ih =>
    intro i c c'
    simp only [run_attempts]
    cases h : (submit_and_check txn cfg.retry_after (env i)).result with
    | ok _ => simp [h]
    | error _ => simp [h]; exact ih (i + 1) _ _

/-- The success flag of submit_check_and_retry is the success flag of the
retry loop or-ed with the fallback outcome. -/
theorem submit_check_and_retry_fst (cfg : ExecutorCfg) (o : SelectOracle)
    (txn : SignedTransaction) (run_seed : Nat) (env : Nat → SubmitEnv)
    (fallbackOk : Bool) (c : CounterState) :
    (submit_check_and_retry cfg o txn run_seed env fallbackOk c).1
      = ((run_attempts cfg o txn run_seed env 0 cfg.max_retries c).1 || fallbackOk) := by
  simp only [submit_check_and_retry]
  rcases hr : run_attempts cfg o txn run_seed env 0 cfg.max_retries c with ⟨b, c1⟩
  cases b with
  | true => rfl
  | false => cases fallbackOk <;> rfl

/-- If some transaction of the batch fails its retries and fallback, the
whole run_batch fails. The per-transaction success test is taken at a
fixed reference counter state, which is legitimate by independence. -/
theorem run_batch_fst_false (cfg : ExecutorCfg) (o : SelectOracle)
    (run_seed : Nat) (envs : Nat → Nat → SubmitEnv) (fallbackOks : Nat → Bool)
    (c0 : CounterState) :
    ∀ (l : List SignedTransaction) (j : Nat) (c : CounterState),
      (∃ k : Fin l.length,
        (submit_check_and_retry cfg o (l.get k) run_seed (envs (j + k.val))
          (fallbackOks (j + k.val)) c0).1 = false) →
      (run_batch cfg o run_seed envs fallbackOks l j c).1 = false := by
  intro l
  induction l with
  | nil =>
    intro j c h
    obtain ⟨k, _⟩ := h
    exact k.elim0
  | cons txn rest ih =>
    intro j c h
    obtain ⟨k, hk⟩ := h
    simp only [run_batch, Bool.and_eq_false_iff]
    rcases k with ⟨kv, hkv⟩
    cases kv with
    | zero =>
      left
      rw [submit_check_and_retry_fst] at hk ⊢
      simp only [List.get, Nat.add_zero, Fin.val_mk] at hk
      rw [run_attempts_fst_indep cfg o txn run_seed (envs j) cfg.max_retries 0 c c0]
      exact hk
    | succ kv =>
      right
      apply ih (j + 1)
      refine ⟨⟨kv, by simpa using Nat.lt_of_succ_lt_succ hkv⟩, ?_⟩
      have harith : j + 1 + kv = j + (kv + 1) := by omega
      simpa [harith] using hk

/-- C1: in one submit_and_check attempt, the attempt succeeds if and only
if the wait step succeeds; a submission failure sets only the
submit-failure flag and never by itself fails the attempt, and a wait
failure sets the wait-failure flag and fails the attempt, regardless of
the submission outcome. -/
theorem submit_and_check_attempt_success_iff_wait (txn : SignedTransaction)
    (wait_duration : Nat) (env : SubmitEnv) :
    ((submit_and_check txn wait_duration env).result = Except.ok () ↔ env.waitOk = true)
    ∧ (submit_and_check txn wait_duration env).failed_submit = !env.submitOk
    ∧ (submit_and_check txn wait_duration env).failed_wait = !env.waitOk := by
  cases hw : env.waitOk <;> cases hs : env.submitOk <;>
    simp [submit_and_check, hw, hs]

/-- C9: the timeout handed to the wait step is the wait budget minus the
time elapsed during submission, floored at zero (saturating subtraction),
and the wait call is bounded by the transaction's own expiration timestamp
and keyed by its content hash. -/
theorem submit_and_check_wait_budget (txn : SignedTransaction)
    (wait_duration : Nat) (env : SubmitEnv) :
    (submit_and_check txn wait_duration env).wait_call.timeout
        = (if env.submitElapsed ≤ wait_duration
           then wait_duration - env.submitElapsed else 0)
    ∧ (submit_and_check txn wait_duration env).wait_call.deadline
        = txn.expiration_timestamp_secs
    ∧ (submit_and_check txn wait_duration env).wait_call.hash
        = txn.committed_hash := by
  have ht : (submit_and_check txn wait_duration env).wait_call
      = { hash := txn.committed_hash
          deadline := txn.expiration_timestamp_secs
          timeout := wait_duration - env.submitElapsed } := by
    cases hw : env.waitOk <;> simp [submit_and_check, hw]
  rw [ht]
  refine ⟨?_, rfl, rfl⟩
  show wait_duration - env.submitElapsed = _
  split <;> omega

/-- C2: endpoint selection is deterministic — equal attempt index, run
seed and sender address, over the same pool and the same hash/RNG
capabilities, always select the same endpoint. -/
theorem select_endpoint_deterministic (o : SelectOracle) (cfg : ExecutorCfg)
    (i1 i2 s1 s2 : Nat) (a1 a2 : List Nat)
    (hi : i1 = i2) (hs : s1 = s2) (ha : a1 = a2) :
    select_endpoint o cfg i1 s1 a1 = select_endpoint o cfg i2 s2 a2 := by
  subst hi; subst hs; subst ha; rfl

/-- Witness for C2 at a concrete oracle, pool, attempt index, run seed and
sender address. -/
theorem select_endpoint_deterministic_witness :
    select_endpoint oracleB cfgB 1 2 [3] = select_endpoint oracleB cfgB 1 2 [3] :=
  select_endpoint_deterministic oracleB cfgB 1 1 2 2 [3] [3] rfl rfl rfl

/-- Counterexample for C3: in Scenario B (one endpoint, max_retries three,
first two submissions fail, third attempt's wait succeeds), the claim as
stated is false — the wait-failure buckets are not all zero, because an
attempt can only fail by failing its wait. -/
theorem scenario_b_counterexample :
    ¬ ((submit_check_and_retry cfgB oracleB txnB 0 envB true
          (RestApi.create_counter_state cfgB)).2.submit_failures.getD 0 0 = 1
        ∧ (submit_check_and_retry cfgB oracleB txnB 0 envB true
            (RestApi.create_counter_state cfgB)).2.submit_failures.getD 1 0 = 1
        ∧ (submit_check_and_retry cfgB oracleB txnB 0 envB true
            (RestApi.create_counter_state cfgB)).2.successes = 1
        ∧ ∀ x ∈ (submit_check_and_retry cfgB oracleB txnB 0 envB true
            (RestApi.create_counter_state cfgB)).2.wait_failures, x = 0) := by
  decide

/-- C3 amended: in Scenario B the retry loop ends with
submit_failures[0] = submit_failures[1] = 1, one global success, and — since
a failed attempt is exactly a failed wait — wait_failures[0] =
wait_failures[1] = 1 with wait_failures[2] = 0, not all wait buckets zero. -/
theorem scenario_b_amended :
    (submit_check_and_retry cfgB oracleB txnB 0 envB true
        (RestApi.create_counter_state cfgB)).1 = true
    ∧ (submit_check_and_retry cfgB oracleB txnB 0 envB true
        (RestApi.create_counter_state cfgB)).2.submit_failures = [1, 1, 0]
    ∧ (submit_check_and_retry cfgB oracleB txnB 0 envB true
        (RestApi.create_counter_state cfgB)).2.wait_failures = [1, 1, 0]
    ∧ (submit_check_and_retry cfgB oracleB txnB 0 envB true
        (RestApi.create_counter_state cfgB)).2.successes = 1 := by
  decide

/-- C8: for every configuration with max_retries at least one, the created
counter state has submit-failure and wait-failure arrays of exactly
max_retries zeroed entries, a zero global success counter, and one zeroed
per-endpoint triple per client of the pool, keyed in pool order. -/
theorem rest_create_counter_state_shape (cfg : ExecutorCfg)
    (h : 1 ≤ cfg.max_retries) :
    (RestApi.create_counter_state cfg).submit_failures.length = cfg.max_retries
    ∧ (RestApi.create_counter_state cfg).wait_failures.length = cfg.max_retries
    ∧ (∀ x ∈ (RestApi.create_counter_state cfg).submit_failures, x = 0)
    ∧ (∀ x ∈ (RestApi.create_counter_state cfg).wait_failures, x = 0)
    ∧ (RestApi.create_counter_state cfg).successes = 0
    ∧ (RestApi.create_counter_state cfg).by_client.map Prod.fst = cfg.rest_clients
    ∧ ∀ e ∈ (RestApi.create_counter_state cfg).by_client, e.2 = (0, 0, 0) := by
  refine ⟨?_, ?_, ?_, ?_, rfl, ?_, ?_⟩ <;>
    simp only [RestApi.create_counter_state, List.map_map] <;>
    first
      | exact List.map_id cfg.rest_clients
      | simp

/-- Witness for C8 at the concrete Scenario B configuration. -/
theorem rest_create_counter_state_shape_witness :
    1 ≤ cfgB.max_retries
    ∧ ((RestApi.create_counter_state cfgB).submit_failures.length = cfgB.max_retries
      ∧ (RestApi.create_counter_state cfgB).wait_failures.length = cfgB.max_retries
      ∧ (∀ x ∈ (RestApi.create_counter_state cfgB).submit_failures, x = 0)
      ∧ (∀ x ∈ (RestApi.create_counter_state cfgB).wait_failures, x = 0)
      ∧ (RestApi.create_counter_state cfgB).successes = 0
      ∧ (RestApi.create_counter_state cfgB).by_client.map Prod.fst = cfgB.rest_clients
      ∧ ∀ e ∈ (RestApi.create_counter_state cfgB).by_client, e.2 = (0, 0, 0)) :=
  ⟨by decide, rest_create_counter_state_shape cfgB (by decide)⟩

/-- C10: the local-ledger executor's batch call returns the counter state
argument entirely unchanged — no bucket, success counter or per-endpoint
entry is touched, whatever the batch, channel outcome or polling trace. -/
theorem local_execute_counters_unchanged (txns : List SignedTransaction)
    (sendOk : Bool) (checkpointHash : Nat) (obs : Nat → List Nat → Nat)
    (fuel : Nat) (c : CounterState) :
    (DbGen.execute_transactions_with_counter txns sendOk checkpointHash
        obs fuel c).2.2 = c := by
  cases sendOk <;> simp only [DbGen.execute_transactions_with_counter]
  · rfl
  · cases hw : DbGen.wait_all_seqs obs fuel txns 0 <;> simp [hw]

/-- C4: when every retry attempt has failed, the fallback step decides the
transaction: a fallback success yields success crediting only the global
success counter — the attempt buckets and the per-endpoint entries are
exactly those left by the retry loop — and a fallback failure yields
failure with the counters exactly as the loop left them. -/
theorem fallback_wait_frame (cfg : ExecutorCfg) (o : SelectOracle)
    (txn : SignedTransaction) (run_seed : Nat) (env : Nat → SubmitEnv)
    (fallbackOk : Bool) (c : CounterState)
    (h : (run_attempts cfg o txn run_seed env 0 cfg.max_retries c).1 = false) :
    (submit_check_and_retry cfg o txn run_seed env fallbackOk c).1 = fallbackOk
    ∧ (submit_check_and_retry cfg o txn run_seed env fallbackOk c).2.submit_failures
        = (run_attempts cfg o txn run_seed env 0 cfg.max_retries c).2.submit_failures
    ∧ (submit_check_and_retry cfg o txn run_seed env fallbackOk c).2.wait_failures
        = (run_attempts cfg o txn run_seed env 0 cfg.max_retries c).2.wait_failures
    ∧ (submit_check_and_retry cfg o txn run_seed env fallbackOk c).2.by_client
        = (run_attempts cfg o txn run_seed env 0 cfg.max_retries c).2.by_client
    ∧ (submit_check_and_retry cfg o txn run_seed env fallbackOk c).2.successes
        = (run_attempts cfg o txn run_seed env 0 cfg.max_retries c).2.successes
          + (if fallbackOk then 1 else 0) := by
  rcases hr : run_attempts cfg o txn run_seed env 0 cfg.max_retries c with ⟨b, c1⟩
  rw [hr] at h
  simp only at h
  subst h
  simp only [submit_check_and_retry, hr]
  cases fallbackOk <;> simp

/-- Witness for C4: with Scenario B's configuration but every attempt
failing, the retry loop fails and the fallback-success frame holds. -/
theorem fallback_wait_frame_witness :
    (run_attempts cfgB oracleB txnB 0 envAllFail 0 cfgB.max_retries
        (RestApi.create_counter_state cfgB)).1 = false
    ∧ ((submit_check_and_retry cfgB oracleB txnB 0 envAllFail true
          (RestApi.create_counter_state cfgB)).1 = true
      ∧ (submit_check_and_retry cfgB oracleB txnB 0 envAllFail true
          (RestApi.create_counter_state cfgB)).2.submit_failures
          = (run_attempts cfgB oracleB txnB 0 envAllFail 0 cfgB.max_retries
              (RestApi.create_counter_state cfgB)).2.submit_failures
      ∧ (submit_check_and_retry cfgB oracleB txnB 0 envAllFail true
          (RestApi.create_counter_state cfgB)).2.wait_failures
          = (run_attempts cfgB oracleB txnB 0 envAllFail 0 cfgB.max_retries
              (RestApi.create_counter_state cfgB)).2.wait_failures
      ∧ (submit_check_and_retry cfgB oracleB txnB 0 envAllFail true
          (RestApi.create_counter_state cfgB)).2.by_client
          = (run_attempts cfgB oracleB txnB 0 envAllFail 0 cfgB.max_retries
              (RestApi.create_counter_state cfgB)).2.by_client
      ∧ (submit_check_and_retry cfgB oracleB txnB 0 envAllFail true
          (RestApi.create_counter_state cfgB)).2.successes
          = (run_attempts cfgB oracleB txnB 0 envAllFail 0 cfgB.max_retries
              (RestApi.create_counter_state cfgB)).2.successes
            + (if true then 1 else 0)) :=
  ⟨by decide,
   fallback_wait_frame cfgB oracleB txnB 0 envAllFail true
     (RestApi.create_counter_state cfgB) (by decide)⟩

/-- C5: if at least one transaction of the batch fails its retries and its
fallback wait, the batch call returns an aggregated error whose recorded
batch size is exactly the length of the input transaction slice. -/
theorem batch_error_records_batch_size (cfg : ExecutorCfg) (o : SelectOracle)
    (txns : List SignedTransaction) (run_seed : Nat)
    (envs : Nat → Nat → SubmitEnv) (fallbackOks : Nat → Bool)
    (c : CounterState)
    (h : ∃ k : Fin txns.length,
        (submit_check_and_retry cfg o (txns.get k) run_seed (envs k.val)
          (fallbackOks k.val) (RestApi.create_counter_state cfg)).1 = false) :
    ∃ e : BatchError,
      (RestApi.execute_transactions_with_counter cfg o txns run_seed envs
          fallbackOks c).1 = Except.error e
      ∧ e.batchSize = txns.length := by
  have hb : (run_batch cfg o run_seed envs fallbackOks txns 0 c).1 = false := by
    apply run_batch_fst_false cfg o run_seed envs fallbackOks
      (RestApi.create_counter_state cfg) txns 0 c
    obtain ⟨k, hk⟩ := h
    exact ⟨k, by simpa using hk⟩
  refine ⟨{ batchSize := txns.length,
            counters := (run_batch cfg o run_seed envs fallbackOks txns 0 c).2 }, ?_, rfl⟩
  simp [RestApi.execute_transactions_with_counter, hb]

/-- Witness for C5: a one-transaction batch whose attempts and fallback
all fail produces an error recording batch size one. -/
theorem batch_error_records_batch_size_witness :
    (∃ k : Fin [txnB].length,
      (submit_check_and_retry cfgB oracleB ([txnB].get k) 0
        ((fun _ => envAllFail) k.val) ((fun _ => false) k.val)
        (RestApi.create_counter_state cfgB)).1 = false)
    ∧ ∃ e : BatchError,
        (RestApi.execute_transactions_with_counter cfgB oracleB [txnB] 0
            (fun _ => envAllFail) (fun _ => false)
            (RestApi.create_counter_state cfgB)).1 = Except.error e
        ∧ e.batchSize = [txnB].length :=
  ⟨by decide,
   batch_error_records_batch_size cfgB oracleB [txnB] 0
     (fun _ => envAllFail) (fun _ => false)
     (RestApi.create_counter_state cfgB) (by decide)⟩

/-- Counterexample for C6: at an address whose coin/account resource is
absent from the latest state, the local-ledger executor's lookups panic
(unwrap on None); they do not return an error result. -/
theorem local_lookup_absent_counterexample :
    DbGen.get_account_balance (fun _ => Except.ok none) [1] = RustOutcome.panic
    ∧ DbGen.get_account_balance (fun _ => Except.ok none) [1] ≠ RustOutcome.err
    ∧ DbGen.query_sequence_number (fun _ => Except.ok none) [1] = RustOutcome.panic
    ∧ DbGen.query_sequence_number (fun _ => Except.ok none) [1] ≠ RustOutcome.err := by
  decide

/-- C6 amended: the REST executor's balance lookup propagates a lookup
failure as an error result, but the local-ledger executor panics — it
unwraps the absent coin store or account resource — for every address
missing from the latest state. -/
theorem local_lookup_absent_panics
    (db : List Nat → Except Unit (Option CoinStore))
    (accountDb : List Nat → Except Unit (Option Nat))
    (lookup : Except Unit Nat) (a b : List Nat)
    (h1 : db a = Except.ok none) (h2 : accountDb b = Except.ok none)
    (h3 : lookup = Except.error ()) :
    DbGen.get_account_balance db a = RustOutcome.panic
    ∧ DbGen.query_sequence_number accountDb b = RustOutcome.panic
    ∧ RestApi.get_account_balance lookup = Except.error () := by
  subst h3
  exact ⟨by simp [DbGen.get_account_balance, h1],
         by simp [DbGen.query_sequence_number, h2], rfl⟩

/-- Witness for the amended C6 at a concrete absent address. -/
theorem local_lookup_absent_panics_witness :
    DbGen.get_account_balance (fun _ => Except.ok none) [2] = RustOutcome.panic
    ∧ DbGen.query_sequence_number (fun _ => Except.ok none) [2] = RustOutcome.panic
    ∧ RestApi.get_account_balance (Except.error ()) = Except.error () :=
  local_lookup_absent_panics (fun _ => Except.ok none) (fun _ => Except.ok none)
    (Except.error ()) [2] [2] rfl rfl rfl

/-- A successful wait_for_seq exits only at a poll instant where the
observed sequence number has reached the target. -/
theorem wait_for_seq_reaches (obs : Nat → Nat) (target : Nat) :
    ∀ (fuel t t1 : Nat), DbGen.wait_for_seq obs target t fuel = some t1 →
      target ≤ obs t1 := by
  intro fuel
  induction fuel with
  | zero => intro t t1 h; exact absurd h (by simp [DbGen.wait_for_seq])
  | succ fuel ih =>
    intro t t1 h
    simp only [DbGen.wait_for_seq] at h
    by_cases hgt : target > obs t
    · rw [if_pos hgt] at h
      exact ih _ _ h
    · rw [if_neg hgt] at h
      obtain rfl : t = t1 := Option.some.inj h
      omega

/-- wait_for_seq never exits before the poll instant it started at. -/
theorem wait_for_seq_start_le (obs : Nat → Nat) (target : Nat) :
    ∀ (fuel t t1 : Nat), DbGen.wait_for_seq obs target t fuel = some t1 →
      t ≤ t1 := by
  intro fuel
  induction fuel with
  | zero => intro t t1 h; exact absurd h (by simp [DbGen.wait_for_seq])
  | succ fuel ih =>
    intro t t1 h
    simp only [DbGen.wait_for_seq] at h
    by_cases hgt : target > obs t
    · rw [if_pos hgt] at h
      exact Nat.le_of_succ_le (ih _ _ h)
    · rw [if_neg hgt] at h
      obtain rfl : t = t1 := Option.some.inj h
      exact Nat.le_refl t

/-- C7: for the local-ledger executor given one transaction of sequence
number N from a sender currently at N - 1, a successful call delivers to
the channel exactly one batch — the wrapped transaction followed by one
trailing checkpoint marker — and returns only at a poll instant where the
locally observed sequence number has reached at least N (so it polls at
least once). -/
theorem local_scenario_c (txn : SignedTransaction) (sendOk : Bool)
    (checkpointHash : Nat) (obs : Nat → List Nat → Nat) (fuel : Nat)
    (c : CounterState) (t : Nat)
    (hsend : sendOk = true)
    (hstart : obs 0 txn.sender + 1 = txn.sequence_number)
    (hres : (DbGen.execute_transactions_with_counter [txn] sendOk
        checkpointHash obs fuel c).2.1 = DbGen.DbExecOutcome.success t) :
    (DbGen.execute_transactions_with_counter [txn] sendOk checkpointHash
        obs fuel c).1
      = [[{ transaction := Transaction.userTransaction txn, extra_info := none },
          { transaction := Transaction.stateCheckpoint checkpointHash,
            extra_info := none }]]
    ∧ txn.sequence_number ≤ obs t txn.sender
    ∧ 1 ≤ t := by
  subst hsend
  have hw : DbGen.wait_all_seqs obs fuel [txn] 0 = some t := by
    simp only [DbGen.execute_transactions_with_counter, if_true] at hres
    cases hww : DbGen.wait_all_seqs obs fuel [txn] 0 with
    | none => rw [hww] at hres; exact absurd hres (by simp)
    | some t1 =>
      rw [hww] at hres
      simp only at hres
      obtain rfl : t1 = t := by injection hres
      rfl
  have hwf : DbGen.wait_for_seq (fun s => obs s txn.sender)
      txn.sequence_number 0 fuel = some t := by
    simp only [DbGen.wait_all_seqs] at hw
    cases hwf1 : DbGen.wait_for_seq (fun s => obs s txn.sender)
        txn.sequence_number 0 fuel with
    | none => rw [hwf1] at hw; exact absurd hw (by simp)
    | some t1 =>
      rw [hwf1] at hw
      simp only [DbGen.wait_all_seqs] at hw
      exact hw
  refine ⟨?_, ?_, ?_⟩
  · simp [DbGen.execute_transactions_with_counter, hw, DbGen.sent_batch]
  · exact wait_for_seq_reaches (fun s => obs s txn.sender)
      txn.sequence_number fuel 0 t hwf
  · cases fuel with
    | zero => exact absurd hwf (by simp [DbGen.wait_for_seq])
    | succ fuel =>
      simp only [DbGen.wait_for_seq] at hwf
      rw [if_pos (by omega)] at hwf
      exact wait_for_seq_start_le (fun s => obs s txn.sender)
        txn.sequence_number fuel 1 t hwf

/-- Witness for C7: sender observed at 4 before the first poll and at 5
from then on, transaction sequence number 5; the call succeeds at poll
instant 1 having delivered the single two-element batch. -/
theorem local_scenario_c_witness :
    (fun s (_ : List Nat) => if s = 0 then 4 else 5) 0 txnB.sender + 1
        = txnB.sequence_number
    ∧ (DbGen.execute_transactions_with_counter [txnB] true 99
        (fun s _ => if s = 0 then 4 else 5) 3 DbGen.create_counter_state).2.1
        = DbGen.DbExecOutcome.success 1
    ∧ ((DbGen.execute_transactions_with_counter [txnB] true 99
          (fun s _ => if s = 0 then 4 else 5) 3 DbGen.create_counter_state).1
        = [[{ transaction := Transaction.userTransaction txnB, extra_info := none },
            { transaction := Transaction.stateCheckpoint 99, extra_info := none }]]
      ∧ txnB.sequence_number
          ≤ (fun s (_ : List Nat) => if s = 0 then 4 else 5) 1 txnB.sender
      ∧ 1 ≤ 1) :=
  ⟨by decide, by decide,
   local_scenario_c txnB true 99 (fun s _ => if s = 0 then 4 else 5) 3
     DbGen.create_counter_state 1 rfl (by decide) (by decide)⟩
